import Mathlib

/-!
Verification of the MemoizeX webhook delivery pipeline.

This file gives a shallow embedding of the webhook subsystem
(`WebhookSender`, `WebhookQueue`, `WebhookManager`, the payload formatter
and the database accessors used by them) and proves the spec's claims
about it.

Modelling conventions:
- JavaScript numbers that only ever hold non-negative integers
  (timestamps, counters, HTTP statuses, retry counts) are `Nat`.
- `Date.now()` is modelled as a read from an external clock stream
  `Env.clock : Nat → Nat`, consumed via a per-state read counter.
- The callback outcome of one `GM.xmlHttpRequest` call is a value of
  `TransportOutcome`; the n-th network request of a run observes
  `Env.transport n`.
- A raw Dexie operation may reject; whether the n-th storage operation
  rejects is `Env.storageFails n`.  The database accessors attach
  `.catch(this.logError)`, modelled by returning the state unchanged
  except for the error-log counter.
- `JSON.stringify(payload)` is injective on payloads, so the serialized
  request payload is modelled by the payload value itself.
-/

namespace MemoizeX

/-- Models `x || d` on JavaScript strings that may be `undefined`: the default is
taken when the value is absent *or* the empty string (falsy). -/
def jsOr : Option String → String → String
  | some s, d => if s = "" then d else s
  | none, d => d

/-! ### Data model (`src/types/webhook.ts`) -/

/-- Webhook event types (`WebhookEventType`). -/
inductive WebhookEventType
  | like
  | bookmark
  | view
deriving DecidableEq, Repr

/-- The string the TS union member interpolates to in a template literal. -/
def WebhookEventType.toStr : WebhookEventType → String
  | .like => "like"
  | .bookmark => "bookmark"
  | .view => "view"

/-- Webhook log status (`WebhookLogStatus`). -/
inductive WebhookLogStatus
  | pending
  | success
  | failed
deriving DecidableEq, Repr

/-- Media item in webhook payload (`WebhookMediaItem`); the media type is
kept as its literal string (`photo` / `video` / `animated_gif`). -/
structure WebhookMediaItem where
  type : String
  url : String
deriving DecidableEq, Repr

/-- Author block of `WebhookTweetData`. -/
structure WebhookAuthor where
  id : String
  screen_name : String
  name : String
deriving DecidableEq, Repr

/-- Stats block of `WebhookTweetData`. -/
structure WebhookStats where
  likes : Nat
  retweets : Nat
  replies : Nat
  quotes : Nat
  bookmarks : Nat
deriving DecidableEq, Repr

/-- Tweet data included in webhook payload (`WebhookTweetData`). -/
structure WebhookTweetData where
  id : String
  text : String
  author : WebhookAuthor
  url : String
  created_at : String
  stats : WebhookStats
  media : List WebhookMediaItem
deriving DecidableEq, Repr

/-- Webhook payload sent to external endpoints (`WebhookPayload`). -/
structure WebhookPayload where
  event : WebhookEventType
  timestamp : Nat
  data : WebhookTweetData
deriving DecidableEq, Repr

/-- Webhook configuration (`WebhookConfig`). -/
structure WebhookConfig where
  id : String
  name : String
  url : String
  enabled : Bool
  events : List WebhookEventType
  headers : List (String × String)
  retry_on_failure : Bool
  max_retries : Nat
  created_at : Nat
  updated_at : Nat
deriving DecidableEq, Repr

/-- Webhook execution log (`WebhookLog`).  `request_payload` holds the
payload value itself, standing for its (injective) JSON serialization. -/
structure WebhookLog where
  id : String
  event_type : WebhookEventType
  tweet_id : String
  webhook_url : String
  status : WebhookLogStatus
  request_payload : WebhookPayload
  response_status : Option Nat
  error_message : Option String
  created_at : Nat
  retry_count : Nat
deriving DecidableEq, Repr

/-! ### Tweet input shape

Only the fields the webhook formatter reads (`tweet.rest_id`,
`tweet.core?.user_results?.result`, `tweet.legacy`, and the media list
consumed through `extractTweetMedia`). -/

/-- Embeds `author.core` of a user result: the fields read by the formatter. -/
structure UserCore where
  screen_name : Option String
  name : Option String
deriving DecidableEq, Repr

/-- A user result (`tweet.core.user_results.result`). -/
structure TweetUser where
  rest_id : String
  core : Option UserCore
deriving DecidableEq, Repr

/-- Embeds `tweet.core.user_results`. -/
structure UserResults where
  result : Option TweetUser
deriving DecidableEq, Repr

/-- Embeds `tweet.core`. -/
structure TweetCore where
  user_results : Option UserResults
deriving DecidableEq, Repr

/-- Embeds `tweet.legacy`: the fields read by the formatter.  Each may be absent
in the source object. -/
structure TweetLegacy where
  full_text : Option String
  created_at : Option String
  favorite_count : Option Nat
  retweet_count : Option Nat
  reply_count : Option Nat
  quote_count : Option Nat
  bookmark_count : Option Nat
deriving DecidableEq, Repr

/-- The tweet entity handed to the pipeline.  `mediaEntries` stands for
the media attachments that `extractTweetMedia` extracts. -/
structure Tweet where
  rest_id : String
  core : Option TweetCore
  legacy : Option TweetLegacy
  mediaEntries : List WebhookMediaItem
deriving DecidableEq, Repr

/-! ### Payload formatter (`src/utils/webhook-formatter.ts`) -/

/-- Modelled from the spec: `extractTweetMedia` (in `utils/api`, not part
of the provided sources) extracts the media attachments `[{type, url}]`
of a tweet; we let the tweet carry that list directly. -/
def extractTweetMedia (tweet : Tweet) : List WebhookMediaItem :=
  tweet.mediaEntries

/-- Embeds `formatMediaItems`: maps extracted media to `{type, url}` pairs. -/
def formatMediaItems (tweet : Tweet) : List WebhookMediaItem :=
  (extractTweetMedia tweet).map fun item => { type := item.type, url := item.url }

/-- Embeds `formatTweetData` from `src/utils/webhook-formatter.ts`. -/
def formatTweetData (tweet : Tweet) : WebhookTweetData :=
  let author := (tweet.core.bind fun c => c.user_results).bind fun u => u.result
  let legacy := tweet.legacy
  let screenName := jsOr ((author.bind fun a => a.core).bind fun c => c.screen_name) "unknown"
  let isMinimalTweet := legacy.isNone && author.isNone
  { id := tweet.rest_id
    text := jsOr (legacy.bind fun l => l.full_text) ""
    author :=
      if isMinimalTweet then
        { id := "", screen_name := "unknown", name := "" }
      else
        { id := jsOr (author.map fun a => a.rest_id) ""
          screen_name := screenName
          name := jsOr ((author.bind fun a => a.core).bind fun c => c.name) "" }
    url := "https://x.com/i/status/" ++ tweet.rest_id
    created_at := jsOr (legacy.bind fun l => l.created_at) ""
    stats :=
      { likes := ((legacy.bind fun l => l.favorite_count).getD 0)
        retweets := ((legacy.bind fun l => l.retweet_count).getD 0)
        replies := ((legacy.bind fun l => l.reply_count).getD 0)
        quotes := ((legacy.bind fun l => l.quote_count).getD 0)
        bookmarks := ((legacy.bind fun l => l.bookmark_count).getD 0) }
    media := if isMinimalTweet then [] else formatMediaItems tweet }

/-- Embeds `formatWebhookPayload`; the `Date.now()` it reads is passed in. -/
def formatWebhookPayload (tweet : Tweet) (eventType : WebhookEventType)
    (now : Nat) : WebhookPayload :=
  { event := eventType, timestamp := now, data := formatTweetData tweet }

/-- Embeds `generateWebhookLogId`. -/
def generateWebhookLogId (eventType : WebhookEventType) (tweetId : String)
    (timestamp : Nat) : String :=
  "webhook-" ++ eventType.toStr ++ "-" ++ tweetId ++ "-" ++ Nat.repr timestamp

/-! ### Sender (`sender.ts`) -/

/-- Default request timeout in milliseconds (`DEFAULT_TIMEOUT`). -/
def DEFAULT_TIMEOUT : Nat := 10000

/-- The outcome of one `GM.xmlHttpRequest` call: exactly one of the three
callbacks fires, or the call itself throws synchronously. -/
inductive TransportOutcome
  | onload (status : Nat) (statusText : String) (responseText : String)
  | onerror (statusText : Option String)
  | ontimeout
  | exn (message : Option String)
deriving DecidableEq, Repr

/-- Send options (`WebhookSendOptions`). -/
structure WebhookSendOptions where
  url : String
  headers : Option (List (String × String))
  timeout : Option Nat
deriving DecidableEq, Repr

/-- Result of a webhook send operation (`WebhookSendResult`). -/
structure WebhookSendResult where
  success : Bool
  status : Option Nat := none
  responseText : Option String := none
  error : Option String := none
deriving DecidableEq, Repr

/-- Embeds `WebhookSender.makeRequest`: resolves every transport outcome to a
`WebhookSendResult`, never rejecting. -/
def WebhookSender.makeRequest (_url : String) (_payload : WebhookPayload)
    (_headers : List (String × String)) (timeout : Nat)
    (outcome : TransportOutcome) : WebhookSendResult :=
  match outcome with
  | .onload status statusText responseText =>
    let success := decide (200 ≤ status ∧ status < 300)
    { success := success
      status := some status
      responseText := some responseText
      error :=
        if success then none
        else some ("HTTP " ++ Nat.repr status ++ ": " ++ statusText) }
  | .onerror statusText =>
    { success := false
      error := some ("Network error: " ++ jsOr statusText "Request failed") }
  | .ontimeout =>
    { success := false
      error := some ("Request timeout after " ++ Nat.repr timeout ++ "ms") }
  | .exn message =>
    { success := false, error := some (jsOr message "Failed to send request") }

/-- Embeds `WebhookSender.send`: destructures the options with defaults
(`headers = {}`, `timeout = DEFAULT_TIMEOUT`) and performs the request.
`makeRequest` always resolves, so the surrounding `try`/`catch` never
fires and `send` is total. -/
def WebhookSender.send (payload : WebhookPayload) (options : WebhookSendOptions)
    (outcome : TransportOutcome) : WebhookSendResult :=
  WebhookSender.makeRequest options.url payload (options.headers.getD [])
    (options.timeout.getD DEFAULT_TIMEOUT) outcome

/-! ### Execution environment and system state -/

/-- The external world: the clock stream read by `Date.now()`, the
transport outcome of each network request, and whether each raw storage
operation rejects. -/
structure Env where
  clock : Nat → Nat
  transport : Nat → TransportOutcome
  storageFails : Nat → Bool

/-- Retry queue item (`RetryQueueItem`). -/
structure RetryQueueItem where
  logId : String
  configId : String
  url : String
  headers : List (String × String)
  payload : WebhookPayload
  retryCount : Nat
  maxRetries : Nat
  nextRetryAt : Nat
deriving DecidableEq, Repr

/-- The mutable state of the pipeline: the `WebhookQueue` fields, the
`webhook_logs` table, the manager's config mirror, and the effect
counters that index into the `Env` streams.  `logTrace` records every
row successfully written by `db.addWebhookLog`, in write order. -/
structure SysState where
  queue : List RetryQueueItem
  isProcessing : Bool
  timer : Option Nat
  logs : List WebhookLog
  logTrace : List WebhookLog
  dbErrors : Nat
  configs : List WebhookConfig
  sends : Nat
  stores : Nat
  clicks : Nat
deriving Repr

/-! ### Database accessors (`DatabaseManager`, webhook tables) -/

/-- A partial update object passed to `db.updateWebhookLog`; `none` means
the field is absent from the update. -/
structure WebhookLogUpdate where
  status : Option WebhookLogStatus := none
  response_status : Option (Option Nat) := none
  error_message : Option (Option String) := none
  retry_count : Option Nat := none
deriving DecidableEq, Repr

/-- Applies a partial update to one log row. -/
def applyLogUpdate (u : WebhookLogUpdate) (l : WebhookLog) : WebhookLog :=
  { l with
    status := u.status.getD l.status
    response_status := u.response_status.getD l.response_status
    error_message := u.error_message.getD l.error_message
    retry_count := u.retry_count.getD l.retry_count }

/-- Dexie `Table.put`: replace the row with the same primary key if it
exists, otherwise insert. -/
def putLog (logs : List WebhookLog) (log : WebhookLog) : List WebhookLog :=
  if logs.any fun l => l.id = log.id then
    logs.map fun l => if l.id = log.id then log else l
  else
    logs ++ [log]

/-- Embeds `db.addWebhookLog(log)`: `put(log).catch(this.logError)` — a rejected
put is caught and logged, leaving the table unchanged. -/
def dbAddWebhookLog (env : Env) (log : WebhookLog) (s : SysState) : SysState :=
  let k := s.stores
  if env.storageFails k then
    { s with stores := k + 1, dbErrors := s.dbErrors + 1 }
  else
    { s with
      stores := k + 1
      logs := putLog s.logs log
      logTrace := s.logTrace ++ [log] }

/-- Embeds `db.updateWebhookLog(id, updates)`: `update(id, updates).catch(this.logError)`
— updates the row with primary key `id` when present; a rejected update
is caught and logged. -/
def dbUpdateWebhookLog (env : Env) (id : String) (u : WebhookLogUpdate)
    (s : SysState) : SysState :=
  let k := s.stores
  if env.storageFails k then
    { s with stores := k + 1, dbErrors := s.dbErrors + 1 }
  else
    { s with
      stores := k + 1
      logs := s.logs.map fun l => if l.id = id then applyLogUpdate u l else l }

/-! ### Retry queue (`queue.ts`) -/

/-- Base delay for exponential backoff in milliseconds (`BASE_RETRY_DELAY`). -/
def BASE_RETRY_DELAY : Nat := 1000

/-- Maximum delay between retries in milliseconds (`MAX_RETRY_DELAY`). -/
def MAX_RETRY_DELAY : Nat := 5 * 60 * 1000

/-- Embeds `WebhookQueue.calculateDelay`. -/
def calculateDelay (retryCount : Nat) : Nat :=
  min (BASE_RETRY_DELAY * 2 ^ retryCount) MAX_RETRY_DELAY

/-- The `queue.reduce` in `scheduleProcessing`: first item with the
strictly smallest `nextRetryAt` (insertion order breaks ties). -/
def findEarliest (queue : List RetryQueueItem) : Option RetryQueueItem :=
  queue.foldl
    (fun earliest item =>
      match earliest with
      | none => some item
      | some e => if item.nextRetryAt < e.nextRetryAt then some item else some e)
    none

/-- Embeds `WebhookQueue.scheduleProcessing`: no-op while processing or when the
queue is empty; otherwise aims the single timer at the earliest-due item
(`delay = max 0 (nextRetryAt - now)`, so the timer fires at
`now + delay`). -/
def scheduleProcessing (env : Env) (s : SysState) : SysState :=
  if s.isProcessing || s.queue.isEmpty then s
  else
    let now := env.clock s.clicks
    let s := { s with clicks := s.clicks + 1 }
    match findEarliest s.queue with
    | none => s
    | some nextItem =>
      let delay := nextItem.nextRetryAt - now
      { s with timer := some (now + delay) }

/-- Embeds `WebhookQueue.add`: computes `nextRetryAt = Date.now() + calculateDelay
(item.retryCount)` (overwriting any incoming value), appends, and re-arms. -/
def WebhookQueue.add (env : Env) (item : RetryQueueItem) (s : SysState) : SysState :=
  let delay := calculateDelay item.retryCount
  let now := env.clock s.clicks
  let s := { s with clicks := s.clicks + 1 }
  let nextRetryAt := now + delay
  let s := { s with queue := s.queue ++ [{ item with nextRetryAt := nextRetryAt }] }
  scheduleProcessing env s

/-- The body of the `for (const item of readyItems)` loop in
`WebhookQueue.processQueue`: splice the item out, re-attempt delivery,
and route the result. -/
def processItem (env : Env) (s : SysState) (item : RetryQueueItem) : SysState :=
  let s := { s with queue := s.queue.erase item }
  let result :=
    WebhookSender.send item.payload
      { url := item.url, headers := some item.headers, timeout := none }
      (env.transport s.sends)
  let s := { s with sends := s.sends + 1 }
  if result.success then
    dbUpdateWebhookLog env item.logId
      { status := some .success
        response_status := some result.status
        retry_count := some (item.retryCount + 1) } s
  else
    if item.retryCount + 1 < item.maxRetries then
      WebhookQueue.add env { item with retryCount := item.retryCount + 1 } s
    else
      dbUpdateWebhookLog env item.logId
        { status := some .failed
          error_message := some result.error
          retry_count := some (item.retryCount + 1) } s

/-- Embeds `WebhookQueue.processQueue`: guarded by the re-entrancy flag,
snapshots the clock, processes the items due at that snapshot, clears the
flag and re-arms. -/
def processQueue (env : Env) (s : SysState) : SysState :=
  if s.isProcessing then s
  else
    let s := { s with isProcessing := true }
    let now := env.clock s.clicks
    let s := { s with clicks := s.clicks + 1 }
    let readyItems := s.queue.filter fun item => item.nextRetryAt ≤ now
    let s := readyItems.foldl (processItem env) s
    let s := { s with isProcessing := false }
    scheduleProcessing env s

/-! ### Delivery manager (`manager.ts`) -/

/-- Embeds `WebhookManager.getConfigsForEvent`. -/
def getConfigsForEvent (configs : List WebhookConfig)
    (eventType : WebhookEventType) : List WebhookConfig :=
  configs.filter fun config => config.enabled && config.events.contains eventType

/-- Embeds `WebhookManager.sendWebhook`: allocates the log id from the current
time, writes the `pending` row, invokes the sender, and routes the
outcome (success / retry queue / immediate `failed`). -/
def sendWebhook (env : Env) (config : WebhookConfig) (payload : WebhookPayload)
    (tweetId : String) (eventType : WebhookEventType) (s : SysState) : SysState :=
  let timestamp := env.clock s.clicks
  let s := { s with clicks := s.clicks + 1 }
  let logId := generateWebhookLogId eventType tweetId timestamp
  let log : WebhookLog :=
    { id := logId
      event_type := eventType
      tweet_id := tweetId
      webhook_url := config.url
      status := .pending
      request_payload := payload
      response_status := none
      error_message := none
      created_at := timestamp
      retry_count := 0 }
  let s := dbAddWebhookLog env log s
  let result :=
    WebhookSender.send payload
      { url := config.url, headers := some config.headers, timeout := none }
      (env.transport s.sends)
  let s := { s with sends := s.sends + 1 }
  if result.success then
    dbUpdateWebhookLog env logId
      { status := some .success, response_status := some result.status } s
  else
    if config.retry_on_failure && decide (config.max_retries > 0) then
      WebhookQueue.add env
        { logId := logId
          configId := config.id
          url := config.url
          headers := config.headers
          payload := payload
          retryCount := 0
          maxRetries := config.max_retries
          nextRetryAt := 0 } s
    else
      dbUpdateWebhookLog env logId
        { status := some .failed, error_message := some result.error } s

/-- Embeds `WebhookManager.triggerWebhooks`. -/
def triggerWebhooks (env : Env) (eventType : WebhookEventType) (tweet : Tweet)
    (s : SysState) : SysState :=
  let configs := getConfigsForEvent s.configs eventType
  if configs.isEmpty then s
  else
    let now := env.clock s.clicks
    let s := { s with clicks := s.clicks + 1 }
    let payload := formatWebhookPayload tweet eventType now
    configs.foldl
      (fun s config => sendWebhook env config payload tweet.rest_id eventType s) s

/-- Embeds `WebhookManager.triggerWebhooksBatch`: entities outer, configs inner;
each entity gets its own freshly formatted payload. -/
def triggerWebhooksBatch (env : Env) (eventType : WebhookEventType)
    (tweets : List Tweet) (s : SysState) : SysState :=
  let configs := getConfigsForEvent s.configs eventType
  if configs.isEmpty then s
  else
    tweets.foldl
      (fun s tweet =>
        let now := env.clock s.clicks
        let s := { s with clicks := s.clicks + 1 }
        let payload := formatWebhookPayload tweet eventType now
        configs.foldl
          (fun s config => sendWebhook env config payload tweet.rest_id eventType s) s)
      s

/-! ### Basic lemmas about the embedding -/

theorem jsOr_ne_empty (o : Option String) (d : String) (hd : d ≠ "") :
    jsOr o d ≠ "" := by
  cases o with
  | none => exact hd
  | some s =>
    by_cases hs : s = "" <;> simp [jsOr, hs, hd]

theorem String.length_eq_zero_iff {s : String} : s.length = 0 ↔ s = "" := by
  cases s with
  | mk data =>
    cases data with
    | nil => exact ⟨fun _ => rfl, fun _ => rfl⟩
    | cons c cs =>
      constructor
      · intro h
        exact absurd h (by simp [String.length])
      · intro h
        exact absurd (congrArg String.data h) (by simp)

theorem append_ne_empty_left (s t : String) (h : s ≠ "") : s ++ t ≠ "" := by
  intro he
  apply h
  have hlen : (s ++ t).length = 0 := by rw [he]; rfl
  rw [String.length_append] at hlen
  exact String.length_eq_zero_iff.mp (by omega)

theorem scheduleProcessing_queue (env : Env) (s : SysState) :
    (scheduleProcessing env s).queue = s.queue := by
  unfold scheduleProcessing
  split
  · rfl
  · dsimp only
    split <;> rfl

theorem scheduleProcessing_logs (env : Env) (s : SysState) :
    (scheduleProcessing env s).logs = s.logs := by
  unfold scheduleProcessing
  split
  · rfl
  · dsimp only
    split <;> rfl

theorem scheduleProcessing_logTrace (env : Env) (s : SysState) :
    (scheduleProcessing env s).logTrace = s.logTrace := by
  unfold scheduleProcessing
  split
  · rfl
  · dsimp only
    split <;> rfl

theorem scheduleProcessing_isProcessing (env : Env) (s : SysState) :
    (scheduleProcessing env s).isProcessing = s.isProcessing := by
  unfold scheduleProcessing
  split
  · rfl
  · dsimp only
    split <;> rfl

theorem scheduleProcessing_sends (env : Env) (s : SysState) :
    (scheduleProcessing env s).sends = s.sends := by
  unfold scheduleProcessing
  split
  · rfl
  · dsimp only
    split <;> rfl

theorem scheduleProcessing_stores (env : Env) (s : SysState) :
    (scheduleProcessing env s).stores = s.stores := by
  unfold scheduleProcessing
  split
  · rfl
  · dsimp only
    split <;> rfl

theorem scheduleProcessing_dbErrors (env : Env) (s : SysState) :
    (scheduleProcessing env s).dbErrors = s.dbErrors := by
  unfold scheduleProcessing
  split
  · rfl
  · dsimp only
    split <;> rfl

theorem scheduleProcessing_configs (env : Env) (s : SysState) :
    (scheduleProcessing env s).configs = s.configs := by
  unfold scheduleProcessing
  split
  · rfl
  · dsimp only
    split <;> rfl

theorem WebhookQueue.add_queue (env : Env) (item : RetryQueueItem) (s : SysState) :
    (WebhookQueue.add env item s).queue =
      s.queue ++
        [{ item with
            nextRetryAt := env.clock s.clicks + calculateDelay item.retryCount }] := by
  unfold WebhookQueue.add
  rw [scheduleProcessing_queue]

theorem WebhookQueue.add_logs (env : Env) (item : RetryQueueItem) (s : SysState) :
    (WebhookQueue.add env item s).logs = s.logs := by
  unfold WebhookQueue.add
  rw [scheduleProcessing_logs]

theorem WebhookQueue.add_logTrace (env : Env) (item : RetryQueueItem) (s : SysState) :
    (WebhookQueue.add env item s).logTrace = s.logTrace := by
  unfold WebhookQueue.add
  rw [scheduleProcessing_logTrace]

theorem WebhookQueue.add_isProcessing (env : Env) (item : RetryQueueItem) (s : SysState) :
    (WebhookQueue.add env item s).isProcessing = s.isProcessing := by
  unfold WebhookQueue.add
  rw [scheduleProcessing_isProcessing]

/-! ### C2 — backoff formula -/

/-- C2: for every retry count `n`, `calculateDelay n = min (1000 * 2 ^ n)
300000` milliseconds, with `backoff 0 = 1000`, `backoff 3 = 8000`,
`backoff 10 = 300000`; and `add` schedules the enqueued item at
`nextRetryAt = now + calculateDelay retryCount`. -/
theorem calculateDelay_backoff :
    (∀ n, calculateDelay n = min (1000 * 2 ^ n) 300000) ∧
    calculateDelay 0 = 1000 ∧ calculateDelay 3 = 8000 ∧ calculateDelay 10 = 300000 ∧
    ∀ env item s, (WebhookQueue.add env item s).queue =
      s.queue ++
        [{ item with
            nextRetryAt := env.clock s.clicks + calculateDelay item.retryCount }] := by
  refine ⟨fun n => rfl, by decide, by decide, by decide, ?_⟩
  intro env item s
  exact WebhookQueue.add_queue env item s

theorem dbUpdateWebhookLog_logTrace (env : Env) (id : String)
    (u : WebhookLogUpdate) (s : SysState) :
    (dbUpdateWebhookLog env id u s).logTrace = s.logTrace := by
  unfold dbUpdateWebhookLog
  dsimp only
  split <;> rfl

theorem dbUpdateWebhookLog_queue (env : Env) (id : String)
    (u : WebhookLogUpdate) (s : SysState) :
    (dbUpdateWebhookLog env id u s).queue = s.queue := by
  unfold dbUpdateWebhookLog
  dsimp only
  split <;> rfl

theorem dbUpdateWebhookLog_sends (env : Env) (id : String)
    (u : WebhookLogUpdate) (s : SysState) :
    (dbUpdateWebhookLog env id u s).sends = s.sends := by
  unfold dbUpdateWebhookLog
  dsimp only
  split <;> rfl

theorem dbUpdateWebhookLog_configs (env : Env) (id : String)
    (u : WebhookLogUpdate) (s : SysState) :
    (dbUpdateWebhookLog env id u s).configs = s.configs := by
  unfold dbUpdateWebhookLog
  dsimp only
  split <;> rfl

theorem dbUpdateWebhookLog_isProcessing (env : Env) (id : String)
    (u : WebhookLogUpdate) (s : SysState) :
    (dbUpdateWebhookLog env id u s).isProcessing = s.isProcessing := by
  unfold dbUpdateWebhookLog
  dsimp only
  split <;> rfl

theorem WebhookQueue.add_sends (env : Env) (item : RetryQueueItem) (s : SysState) :
    (WebhookQueue.add env item s).sends = s.sends := by
  unfold WebhookQueue.add
  rw [scheduleProcessing_sends]

theorem WebhookQueue.add_configs (env : Env) (item : RetryQueueItem) (s : SysState) :
    (WebhookQueue.add env item s).configs = s.configs := by
  unfold WebhookQueue.add
  rw [scheduleProcessing_configs]

/-- The trace-level footprint of a log row: destination URL, event type,
entity id, status and retry count (the fields the fan-out claims speak
about, independent of clock values). -/
def rowMeta (l : WebhookLog) :
    String × WebhookEventType × String × WebhookLogStatus × Nat :=
  (l.webhook_url, l.event_type, l.tweet_id, l.status, l.retry_count)

/-- The `pending` row `sendWebhook` writes when invoked in state `s`. -/
def pendingLogAt (env : Env) (config : WebhookConfig) (payload : WebhookPayload)
    (tweetId : String) (eventType : WebhookEventType) (s : SysState) : WebhookLog :=
  { id := generateWebhookLogId eventType tweetId (env.clock s.clicks)
    event_type := eventType
    tweet_id := tweetId
    webhook_url := config.url
    status := .pending
    request_payload := payload
    response_status := none
    error_message := none
    created_at := env.clock s.clicks
    retry_count := 0 }

theorem sendWebhook_effects (env : Env) (config : WebhookConfig)
    (payload : WebhookPayload) (tweetId : String) (eventType : WebhookEventType)
    (s : SysState) (hstore : env.storageFails s.stores = false) :
    (sendWebhook env config payload tweetId eventType s).logTrace =
      s.logTrace ++ [pendingLogAt env config payload tweetId eventType s] ∧
    (sendWebhook env config payload tweetId eventType s).sends = s.sends + 1 ∧
    (sendWebhook env config payload tweetId eventType s).configs = s.configs := by
  unfold sendWebhook
  dsimp only
  unfold dbAddWebhookLog
  dsimp only
  rw [hstore]
  simp only [Bool.false_eq_true, if_false]
  split
  · rw [dbUpdateWebhookLog_logTrace, dbUpdateWebhookLog_sends, dbUpdateWebhookLog_configs]
    exact ⟨rfl, rfl, rfl⟩
  · split
    · rw [WebhookQueue.add_logTrace, WebhookQueue.add_sends, WebhookQueue.add_configs]
      exact ⟨rfl, rfl, rfl⟩
    · rw [dbUpdateWebhookLog_logTrace, dbUpdateWebhookLog_sends, dbUpdateWebhookLog_configs]
      exact ⟨rfl, rfl, rfl⟩

theorem foldl_sendWebhook_trace (env : Env) (payload : WebhookPayload)
    (tweetId : String) (eventType : WebhookEventType)
    (hstore : ∀ k, env.storageFails k = false) :
    ∀ (cfgs : List WebhookConfig) (s : SysState),
      ((cfgs.foldl (fun s config =>
          sendWebhook env config payload tweetId eventType s) s).logTrace).map rowMeta =
        s.logTrace.map rowMeta ++
          cfgs.map (fun c => (c.url, eventType, tweetId, WebhookLogStatus.pending, 0)) ∧
      (cfgs.foldl (fun s config =>
          sendWebhook env config payload tweetId eventType s) s).sends =
        s.sends + cfgs.length ∧
      (cfgs.foldl (fun s config =>
          sendWebhook env config payload tweetId eventType s) s).configs = s.configs := by
  intro cfgs
  induction cfgs with
  | nil => intro s; exact ⟨by simp, rfl, rfl⟩
  | cons c cfgs ih =>
    intro s
    have he := sendWebhook_effects env c payload tweetId eventType s (hstore s.stores)
    have ih' := ih (sendWebhook env c payload tweetId eventType s)
    refine ⟨?_, ?_, ?_⟩
    · rw [List.foldl_cons, ih'.1, he.1]
      simp [rowMeta, pendingLogAt]
    · rw [List.foldl_cons, ih'.2.1, he.2.1]
      simp [Nat.add_assoc, Nat.add_comm 1 cfgs.length]
    · rw [List.foldl_cons, ih'.2.2, he.2.2]

/-! ### Concrete fixtures used by witnesses and counterexamples -/

/-- A tweet entity carrying only an id. -/
def tweetOnlyId : Tweet :=
  { rest_id := "123", core := none, legacy := none, mediaEntries := [] }

/-- A sample payload (the minimal tweet formatted at time 0). -/
def samplePayload : WebhookPayload :=
  formatWebhookPayload tweetOnlyId .like 0

/-- A fresh pipeline state over the given config mirror. -/
def initialState (configs : List WebhookConfig) : SysState :=
  { queue := []
    isProcessing := false
    timer := none
    logs := []
    logTrace := []
    dbErrors := 0
    configs := configs
    sends := 0
    stores := 0
    clicks := 0 }

/-- A disabled config subscribed to `view`. -/
def cfgDisabled : WebhookConfig :=
  { id := "c1"
    name := "disabled"
    url := "https://example.com/hook1"
    enabled := false
    events := [.view]
    headers := []
    retry_on_failure := false
    max_retries := 0
    created_at := 0
    updated_at := 0 }

/-- An enabled config subscribed only to `like`. -/
def cfgLikeOnly : WebhookConfig :=
  { id := "c2"
    name := "like-only"
    url := "https://example.com/hook2"
    enabled := true
    events := [.like]
    headers := []
    retry_on_failure := false
    max_retries := 0
    created_at := 0
    updated_at := 0 }

/-- An environment whose clock is stuck, whose transport always times
out, and whose storage always succeeds. -/
def envStuck : Env :=
  { clock := fun _ => 0
    transport := fun _ => .ontimeout
    storageFails := fun _ => false }

/-- A config subscribed to `like` with the given id, URL and enabled
flag (no retries). -/
def mkLikeCfg (i u : String) (en : Bool) : WebhookConfig :=
  { id := i
    name := i
    url := u
    enabled := en
    events := [.like]
    headers := []
    retry_on_failure := false
    max_retries := 0
    created_at := 0
    updated_at := 0 }

/-- An enabled `like` config with retries enabled and `max_retries = 3`. -/
def cfgRetry : WebhookConfig :=
  { id := "R"
    name := "retry"
    url := "https://example.com/r"
    enabled := true
    events := [.like]
    headers := []
    retry_on_failure := true
    max_retries := 3
    created_at := 0
    updated_at := 0 }

/-- A retry-queue item created for `cfgRetry`, due immediately. -/
def itemF : RetryQueueItem :=
  { logId := "log1"
    configId := "R"
    url := "https://example.com/r"
    headers := []
    payload := samplePayload
    retryCount := 0
    maxRetries := 3
    nextRetryAt := 0 }

/-- The pending log row the retry item `itemF` refers to. -/
def logF : WebhookLog :=
  { id := "log1"
    event_type := .like
    tweet_id := "123"
    webhook_url := "https://example.com/r"
    status := .pending
    request_payload := samplePayload
    response_status := none
    error_message := none
    created_at := 0
    retry_count := 0 }

/-- An environment whose clock jumps far ahead on every read, whose
transport always reports a network error, and whose storage succeeds. -/
def envFail : Env :=
  { clock := fun k => (k + 1) * 1000000
    transport := fun _ => .onerror none
    storageFails := fun _ => false }

/-- Like `envFail`, but every raw storage operation rejects. -/
def envAllThrow : Env :=
  { clock := fun k => (k + 1) * 1000000
    transport := fun _ => .onerror none
    storageFails := fun _ => true }

/-- A state holding one due retry item and its pending log row. -/
def sRetry : SysState :=
  { queue := [itemF]
    isProcessing := false
    timer := none
    logs := [logF]
    logTrace := []
    dbErrors := 0
    configs := []
    sends := 0
    stores := 0
    clicks := 0 }

/-- A retry item that has already used two of its three retries. -/
def itemExhaust : RetryQueueItem :=
  { itemF with retryCount := 2 }

/-- A retry item that is not due until far in the future. -/
def itemLater : RetryQueueItem :=
  { itemF with logId := "log2", nextRetryAt := 1000000000000 }

/-- A state holding the nearly-exhausted item and the far-future item. -/
def sMixed : SysState :=
  { sRetry with queue := [itemExhaust, itemLater] }

/-- Minimal tweet entities for batch scenarios. -/
def tweetT1 : Tweet := { rest_id := "t1", core := none, legacy := none, mediaEntries := [] }

/-- Second minimal tweet entity for batch scenarios. -/
def tweetT2 : Tweet := { rest_id := "t2", core := none, legacy := none, mediaEntries := [] }

/-! ### C4 — sender totality -/

/-- C4: `WebhookSender.send` is a total function of the transport outcome
(it never throws); `success = true` exactly when the outcome is an HTTP
response with status in `[200, 300)`; every failing result carries a
non-empty error string; and an absent per-call timeout means the request
is made with `DEFAULT_TIMEOUT = 10000` ms. -/
theorem webhookSender_send_spec (payload : WebhookPayload)
    (options : WebhookSendOptions) (outcome : TransportOutcome) :
    ((WebhookSender.send payload options outcome).success = true ↔
      ∃ status statusText responseText,
        outcome = .onload status statusText responseText ∧
        200 ≤ status ∧ status < 300) ∧
    ((WebhookSender.send payload options outcome).success = false →
      ∃ e, (WebhookSender.send payload options outcome).error = some e ∧ e ≠ "") ∧
    (options.timeout = none →
      DEFAULT_TIMEOUT = 10000 ∧
      WebhookSender.send payload options outcome =
        WebhookSender.makeRequest options.url payload (options.headers.getD [])
          10000 outcome) := by
  refine ⟨?_, ?_, ?_⟩
  · cases outcome with
    | onload status statusText responseText =>
      simp only [WebhookSender.send, WebhookSender.makeRequest, decide_eq_true_eq]
      constructor
      · intro h
        exact ⟨status, statusText, responseText, rfl, h.1, h.2⟩
      · rintro ⟨st, stt, rt, heq, h1, h2⟩
        cases heq
        exact ⟨h1, h2⟩
    | onerror statusText =>
      simp [WebhookSender.send, WebhookSender.makeRequest]
    | ontimeout =>
      simp [WebhookSender.send, WebhookSender.makeRequest]
    | exn message =>
      simp [WebhookSender.send, WebhookSender.makeRequest]
  · cases outcome with
    | onload status statusText responseText =>
      intro h
      simp only [WebhookSender.send, WebhookSender.makeRequest] at h
      refine ⟨"HTTP " ++ Nat.repr status ++ ": " ++ statusText, ?_, ?_⟩
      · simp [WebhookSender.send, WebhookSender.makeRequest, h]
      · exact append_ne_empty_left _ _
          (append_ne_empty_left _ _ (append_ne_empty_left _ _ (by decide)))
    | onerror statusText =>
      intro _
      refine ⟨_, rfl, ?_⟩
      exact append_ne_empty_left _ _ (by decide)
    | ontimeout =>
      intro _
      refine ⟨_, rfl, ?_⟩
      exact append_ne_empty_left _ _ (append_ne_empty_left _ _ (by decide))
    | exn message =>
      intro _
      refine ⟨_, rfl, ?_⟩
      exact jsOr_ne_empty _ _ (by decide)
  · intro h
    refine ⟨rfl, ?_⟩
    unfold WebhookSender.send
    rw [h]
    rfl

/-- Witness for C4 at a concrete failing outcome with a defaulted timeout. -/
theorem webhookSender_send_spec_witness :
    ((WebhookSender.send samplePayload
        { url := "https://example.com", headers := none, timeout := none }
        (.onload 404 "Not Found" "")).success = true ↔
      ∃ status statusText responseText,
        (TransportOutcome.onload 404 "Not Found" "") =
          .onload status statusText responseText ∧
        200 ≤ status ∧ status < 300) ∧
    ((WebhookSender.send samplePayload
        { url := "https://example.com", headers := none, timeout := none }
        (.onload 404 "Not Found" "")).success = false →
      ∃ e,
        (WebhookSender.send samplePayload
          { url := "https://example.com", headers := none, timeout := none }
          (.onload 404 "Not Found" "")).error = some e ∧ e ≠ "") := by
  have h := webhookSender_send_spec samplePayload
    { url := "https://example.com", headers := none, timeout := none }
    (.onload 404 "Not Found" "")
  exact ⟨h.1, h.2.1⟩

/-! ### C8 — minimal-entity formatting -/

/-- C8: formatting an entity that carries only an id (no legacy block and
no author object) yields the empty-but-valid payload shape: empty text,
author `{id: "", screen_name: "unknown", name: ""}`, empty media, all
stats zero, empty `created_at`, and `url = "https://x.com/i/status/" ++ id`. -/
theorem formatTweetData_minimal (tweet : Tweet) (eventType : WebhookEventType)
    (now : Nat) (hleg : tweet.legacy = none)
    (hauth : (tweet.core.bind fun c => c.user_results).bind (fun u => u.result) = none) :
    (formatWebhookPayload tweet eventType now).data =
      { id := tweet.rest_id
        text := ""
        author := { id := "", screen_name := "unknown", name := "" }
        url := "https://x.com/i/status/" ++ tweet.rest_id
        created_at := ""
        stats := { likes := 0, retweets := 0, replies := 0, quotes := 0, bookmarks := 0 }
        media := [] } := by
  simp [formatWebhookPayload, formatTweetData, hleg, hauth, jsOr]

/-- Witness for C8 at a concrete id-only entity. -/
theorem formatTweetData_minimal_witness :
    (formatWebhookPayload tweetOnlyId .like 5).data =
      { id := tweetOnlyId.rest_id
        text := ""
        author := { id := "", screen_name := "unknown", name := "" }
        url := "https://x.com/i/status/" ++ tweetOnlyId.rest_id
        created_at := ""
        stats := { likes := 0, retweets := 0, replies := 0, quotes := 0, bookmarks := 0 }
        media := [] } :=
  formatTweetData_minimal tweetOnlyId .like 5 rfl rfl

/-! ### C10 — no-match no-op -/

/-- C10: when no config is enabled and subscribed to the event, both
trigger entry points return the state unchanged: no payload is formatted
(no clock read), no send is attempted, no log row is written, and the
retry queue is untouched. -/
theorem triggerWebhooks_noMatch (env : Env) (eventType : WebhookEventType)
    (tweet : Tweet) (tweets : List Tweet) (s : SysState)
    (h : getConfigsForEvent s.configs eventType = []) :
    triggerWebhooks env eventType tweet s = s ∧
    triggerWebhooksBatch env eventType tweets s = s := by
  constructor
  · unfold triggerWebhooks
    rw [h]
    rfl
  · unfold triggerWebhooksBatch
    rw [h]
    rfl

theorem putLog_fresh (logs : List WebhookLog) (log : WebhookLog)
    (h : ∀ l ∈ logs, l.id ≠ log.id) : putLog logs log = logs ++ [log] := by
  unfold putLog
  rw [if_neg]
  intro hc
  obtain ⟨l, hl, he⟩ := List.any_eq_true.mp hc
  exact h l hl (by simpa using he)

theorem find?_id_append_fresh (logs : List WebhookLog) (log : WebhookLog)
    (id : String) (h : ∀ l ∈ logs, l.id ≠ id) (hlog : log.id = id) :
    (logs ++ [log]).find? (fun l => l.id = id) = some log := by
  rw [List.find?_append]
  have h1 : logs.find? (fun l => l.id = id) = none :=
    List.find?_eq_none.mpr (by intro x hx; simpa using h x hx)
  rw [h1]
  simp [List.find?, hlog]

theorem map_update_fresh (logs : List WebhookLog) (id : String)
    (u : WebhookLogUpdate) (h : ∀ l ∈ logs, l.id ≠ id) :
    logs.map (fun l => if l.id = id then applyLogUpdate u l else l) = logs := by
  induction logs with
  | nil => rfl
  | cons a t ih =>
    rw [List.map_cons, if_neg (h a (List.mem_cons_self a t)),
      ih (fun x hx => h x (List.mem_cons_of_mem a hx))]

/-! ### C7 — retry gating -/

/-- C7: when the first delivery attempt for a config fails, `sendWebhook`
enqueues a retry item with `retryCount = 0` and
`maxRetries = config.max_retries`, leaving the DeliveryLog `pending`, iff
`config.retry_on_failure` is true and `config.max_retries > 0`; otherwise
it finalizes the log as `failed` with the sender's error message and
leaves the retry queue untouched. -/
theorem sendWebhook_retry_gating (env : Env) (config : WebhookConfig)
    (payload : WebhookPayload) (tweetId : String) (eventType : WebhookEventType)
    (s : SysState) (hstore : ∀ k, env.storageFails k = false)
    (hfresh : ∀ l ∈ s.logs,
      l.id ≠ generateWebhookLogId eventType tweetId (env.clock s.clicks))
    (hfail : (WebhookSender.send payload
        { url := config.url, headers := some config.headers, timeout := none }
        (env.transport s.sends)).success = false) :
    (config.retry_on_failure = true ∧ 0 < config.max_retries →
      (sendWebhook env config payload tweetId eventType s).queue =
        s.queue ++
          [{ logId := generateWebhookLogId eventType tweetId (env.clock s.clicks)
             configId := config.id
             url := config.url
             headers := config.headers
             payload := payload
             retryCount := 0
             maxRetries := config.max_retries
             nextRetryAt := env.clock (s.clicks + 1) + calculateDelay 0 }] ∧
      (sendWebhook env config payload tweetId eventType s).logs.find?
          (fun l => l.id = generateWebhookLogId eventType tweetId (env.clock s.clicks)) =
        some (pendingLogAt env config payload tweetId eventType s)) ∧
    (¬(config.retry_on_failure = true ∧ 0 < config.max_retries) →
      (sendWebhook env config payload tweetId eventType s).queue = s.queue ∧
      (sendWebhook env config payload tweetId eventType s).logs.find?
          (fun l => l.id = generateWebhookLogId eventType tweetId (env.clock s.clicks)) =
        some
          { pendingLogAt env config payload tweetId eventType s with
              status := .failed
              error_message :=
                (WebhookSender.send payload
                  { url := config.url, headers := some config.headers, timeout := none }
                  (env.transport s.sends)).error }) := by
  unfold sendWebhook
  dsimp only
  unfold dbAddWebhookLog
  dsimp only
  rw [hstore s.stores]
  simp only [Bool.false_eq_true, if_false]
  rw [hfail]
  simp only [Bool.false_eq_true, if_false]
  constructor
  · rintro ⟨hr, hm⟩
    rw [if_pos (by rw [hr]; simpa using hm)]
    constructor
    · rw [WebhookQueue.add_queue]
    · rw [WebhookQueue.add_logs]
      show (putLog s.logs _).find? _ = _
      rw [putLog_fresh s.logs _ (by intro l hl; exact hfresh l hl)]
      exact find?_id_append_fresh s.logs _ _ (fun l hl => hfresh l hl) rfl
  · intro hng
    rw [if_neg ?hgate]
    case hgate =>
      intro hb
      simp only [Bool.and_eq_true, decide_eq_true_eq] at hb
      exact hng hb
    constructor
    · rw [dbUpdateWebhookLog_queue]
    · unfold dbUpdateWebhookLog
      dsimp only
      rw [hstore (s.stores + 1)]
      simp only [Bool.false_eq_true, if_false]
      show (List.map _ (putLog s.logs _)).find? _ = _
      rw [putLog_fresh s.logs _ (by intro l hl; exact hfresh l hl)]
      rw [List.map_append,
        map_update_fresh s.logs _ _ (fun l hl => hfresh l hl)]
      rw [List.map_singleton]
      rw [if_pos rfl]
      exact find?_id_append_fresh s.logs _ _ (fun l hl => hfresh l hl) rfl

/-- Witness for C7: a failing first attempt against `cfgRetry`
(retries on, `max_retries = 3`) is enqueued with `retryCount = 0` and
the log row stays `pending`. -/
theorem sendWebhook_retry_gating_witness :
    (sendWebhook envStuck cfgRetry samplePayload "123" .like (initialState [])).queue =
      (initialState []).queue ++
        [{ logId :=
             generateWebhookLogId .like "123" (envStuck.clock (initialState []).clicks)
           configId := cfgRetry.id
           url := cfgRetry.url
           headers := cfgRetry.headers
           payload := samplePayload
           retryCount := 0
           maxRetries := cfgRetry.max_retries
           nextRetryAt :=
             envStuck.clock ((initialState []).clicks + 1) + calculateDelay 0 }] ∧
    (sendWebhook envStuck cfgRetry samplePayload "123" .like (initialState [])).logs.find?
        (fun l =>
          l.id = generateWebhookLogId .like "123" (envStuck.clock (initialState []).clicks)) =
      some (pendingLogAt envStuck cfgRetry samplePayload "123" .like (initialState [])) :=
  (sendWebhook_retry_gating envStuck cfgRetry samplePayload "123" .like
      (initialState []) (fun _ => rfl)
      (by intro l hl; simp [initialState] at hl) (by decide)).1
    ⟨rfl, by decide⟩

/-! ### C5 — fan-out correctness -/

/-- C5: `triggerWebhooks` attempts exactly one delivery per config that
is enabled and subscribed to the event (in storage order) and writes
exactly one `pending` DeliveryLog row per such config — none for any
other config; `getConfigsForEvent` is the enabled-and-subscribed filter
in storage order. -/
theorem triggerWebhooks_fanout (env : Env) (eventType : WebhookEventType)
    (tweet : Tweet) (s : SysState)
    (hstore : ∀ k, env.storageFails k = false) :
    getConfigsForEvent s.configs eventType =
      s.configs.filter (fun c => c.enabled && c.events.contains eventType) ∧
    ((triggerWebhooks env eventType tweet s).logTrace).map rowMeta =
      s.logTrace.map rowMeta ++
        (getConfigsForEvent s.configs eventType).map
          (fun c => (c.url, eventType, tweet.rest_id, WebhookLogStatus.pending, 0)) ∧
    (triggerWebhooks env eventType tweet s).sends =
      s.sends + (getConfigsForEvent s.configs eventType).length := by
  refine ⟨rfl, ?_⟩
  unfold triggerWebhooks
  dsimp only
  by_cases hc : (getConfigsForEvent s.configs eventType).isEmpty
  · rw [if_pos hc]
    rw [List.isEmpty_iff] at hc
    rw [hc]
    exact ⟨by simp, rfl⟩
  · rw [if_neg hc]
    have h := foldl_sendWebhook_trace env
      (formatWebhookPayload tweet eventType (env.clock s.clicks)) tweet.rest_id
      eventType hstore (getConfigsForEvent s.configs eventType)
      { s with clicks := s.clicks + 1 }
    exact ⟨h.1, h.2.1⟩

/-- Witness for C5: three enabled configs and one disabled config all
subscribed to `like`; exactly the three enabled ones get a row, in
storage order. -/
theorem triggerWebhooks_fanout_witness :
    ((triggerWebhooks envStuck .like tweetOnlyId
        (initialState
          [mkLikeCfg "A" "uA" true, mkLikeCfg "B" "uB" true,
           mkLikeCfg "D" "uD" false, mkLikeCfg "C" "uC" true])).logTrace).map
        rowMeta =
      [("uA", .like, "123", .pending, 0), ("uB", .like, "123", .pending, 0),
       ("uC", .like, "123", .pending, 0)] ∧
    (triggerWebhooks envStuck .like tweetOnlyId
        (initialState
          [mkLikeCfg "A" "uA" true, mkLikeCfg "B" "uB" true,
           mkLikeCfg "D" "uD" false, mkLikeCfg "C" "uC" true])).sends = 3 := by
  have h := triggerWebhooks_fanout envStuck .like tweetOnlyId
    (initialState
      [mkLikeCfg "A" "uA" true, mkLikeCfg "B" "uB" true,
       mkLikeCfg "D" "uD" false, mkLikeCfg "C" "uC" true])
    (fun _ => rfl)
  exact ⟨h.2.1.trans (by decide), h.2.2.trans (by decide)⟩

/-! ### C6 — batch ordering -/

theorem foldl_batch_trace (env : Env) (eventType : WebhookEventType)
    (cfgs : List WebhookConfig) (hstore : ∀ k, env.storageFails k = false) :
    ∀ (tweets : List Tweet) (s : SysState),
      ((tweets.foldl
          (fun s tweet =>
            let now := env.clock s.clicks
            let s := { s with clicks := s.clicks + 1 }
            let payload := formatWebhookPayload tweet eventType now
            cfgs.foldl
              (fun s config =>
                sendWebhook env config payload tweet.rest_id eventType s) s)
          s).logTrace).map rowMeta =
        s.logTrace.map rowMeta ++
          (tweets.map fun t =>
            cfgs.map fun c =>
              (c.url, eventType, t.rest_id, WebhookLogStatus.pending, 0)).flatten := by
  intro tweets
  induction tweets with
  | nil => intro s; simp
  | cons t tweets ih =>
    intro s
    rw [List.foldl_cons]
    dsimp only
    rw [ih]
    have h := foldl_sendWebhook_trace env
      (formatWebhookPayload t eventType (env.clock s.clicks)) t.rest_id
      eventType hstore cfgs { s with clicks := s.clicks + 1 }
    rw [h.1]
    simp [List.append_assoc]

/-- C6: `triggerWebhooksBatch` iterates entities outer and matching
configs inner: the DeliveryLog rows are written grouped by entity, each
group listing every matching config in storage order before the next
entity starts. -/
theorem triggerWebhooksBatch_order (env : Env) (eventType : WebhookEventType)
    (tweets : List Tweet) (s : SysState)
    (hstore : ∀ k, env.storageFails k = false) :
    ((triggerWebhooksBatch env eventType tweets s).logTrace).map rowMeta =
      s.logTrace.map rowMeta ++
        (tweets.map fun t =>
          (getConfigsForEvent s.configs eventType).map fun c =>
            (c.url, eventType, t.rest_id, WebhookLogStatus.pending, 0)).flatten := by
  unfold triggerWebhooksBatch
  dsimp only
  by_cases hc : (getConfigsForEvent s.configs eventType).isEmpty
  · rw [if_pos hc]
    rw [List.isEmpty_iff] at hc
    rw [hc]
    simp
  · rw [if_neg hc]
    exact foldl_batch_trace env eventType (getConfigsForEvent s.configs eventType)
      hstore tweets s

/-- Witness for C6: two entities, two matching configs — exactly four
rows in the order t1/A, t1/B, t2/A, t2/B. -/
theorem triggerWebhooksBatch_order_witness :
    ((triggerWebhooksBatch envStuck .like [tweetT1, tweetT2]
        (initialState
          [mkLikeCfg "A" "uA" true, mkLikeCfg "B" "uB" true])).logTrace).map
        rowMeta =
      [("uA", .like, "t1", .pending, 0), ("uB", .like, "t1", .pending, 0),
       ("uA", .like, "t2", .pending, 0), ("uB", .like, "t2", .pending, 0)] := by
  have h := triggerWebhooksBatch_order envStuck .like [tweetT1, tweetT2]
    (initialState [mkLikeCfg "A" "uA" true, mkLikeCfg "B" "uB" true])
    (fun _ => rfl)
  exact h.trans (by decide)

/-! ### C9 — DeliveryLog identifier uniqueness -/

/-- The numeric value of a decimal digit character. -/
def digitVal (c : Char) : Nat := c.toNat - 48

/-- Reads a decimal digit string back into a number. -/
def decodeChars (l : List Char) : Nat :=
  l.foldl (fun a c => a * 10 + digitVal c) 0

theorem digitVal_digitChar (m : Nat) (h : m < 10) :
    digitVal (Nat.digitChar m) = m := by
  interval_cases m <;> rfl

theorem decode_toDigitsCore :
    ∀ (fuel n : Nat) (acc : List Char), n < fuel →
      List.foldl (fun a c => a * 10 + digitVal c) 0 (Nat.toDigitsCore 10 fuel n acc) =
      List.foldl (fun a c => a * 10 + digitVal c) n acc := by
  intro fuel
  induction fuel with
  | zero => intro n acc h; omega
  | succ fuel ih =>
    intro n acc h
    by_cases hz : n / 10 = 0
    · simp only [Nat.toDigitsCore, hz, if_true]
      rw [List.foldl_cons]
      rw [digitVal_digitChar (n % 10) (Nat.mod_lt _ (by decide))]
      have h10 : n % 10 = n := by omega
      rw [h10, Nat.zero_mul, Nat.zero_add]
    · simp only [Nat.toDigitsCore, hz, if_false]
      have hlt : n / 10 < fuel := by
        have h1 : n / 10 < n :=
          Nat.div_lt_self (Nat.pos_of_ne_zero (by omega)) (by decide)
        omega
      rw [ih (n / 10) (Nat.digitChar (n % 10) :: acc) hlt]
      rw [List.foldl_cons]
      rw [digitVal_digitChar (n % 10) (Nat.mod_lt _ (by decide))]
      congr 1
      omega

theorem decode_repr (n : Nat) : decodeChars (Nat.repr n).data = n := by
  show decodeChars (Nat.toDigits 10 n).asString.data = n
  have hd : (Nat.toDigits 10 n).asString.data = Nat.toDigits 10 n := rfl
  rw [hd]
  unfold Nat.toDigits
  exact decode_toDigitsCore (n + 1) n [] (by omega)

theorem repr_injective {m n : Nat} (h : Nat.repr m = Nat.repr n) : m = n := by
  have h2 := congrArg (fun s => decodeChars s.data) h
  simpa only [decode_repr] using h2

theorem string_append_cancel_left (p a b : String) (h : p ++ a = p ++ b) : a = b := by
  have hd := congrArg String.data h
  simp only [String.data_append] at hd
  have hab := List.append_cancel_left hd
  cases a
  cases b
  simp only at hab
  rw [hab]

/-- C9 (amended): every id allocated by `sendWebhook` is
`webhook-{eventType}-{entityId}-{timestamp}` for the allocation-time
clock value, and ids for the same event and entity allocated at distinct
timestamps are distinct — but ids are not globally unique: allocations
sharing event, entity and millisecond (e.g. two configs in one fan-out)
collide. -/
theorem generateWebhookLogId_unique_timestamps :
    (∀ (env : Env) (config : WebhookConfig) (payload : WebhookPayload)
        (tweetId : String) (eventType : WebhookEventType) (s : SysState),
      env.storageFails s.stores = false →
      (sendWebhook env config payload tweetId eventType s).logTrace =
        s.logTrace ++ [pendingLogAt env config payload tweetId eventType s] ∧
      (pendingLogAt env config payload tweetId eventType s).id =
        generateWebhookLogId eventType tweetId (env.clock s.clicks)) ∧
    (∀ (eventType : WebhookEventType) (tweetId : String) (n₁ n₂ : Nat),
      n₁ ≠ n₂ →
      generateWebhookLogId eventType tweetId n₁ ≠
        generateWebhookLogId eventType tweetId n₂) := by
  constructor
  · intro env config payload tweetId eventType s hstore
    exact ⟨(sendWebhook_effects env config payload tweetId eventType s hstore).1, rfl⟩
  · intro eventType tweetId n₁ n₂ hne heq
    unfold generateWebhookLogId at heq
    exact hne (repr_injective (string_append_cancel_left _ _ _ heq))

/-- Witness for C9's amended claim: a concrete allocation appends the
formatted id, and timestamps 1 and 2 give different ids. -/
theorem generateWebhookLogId_unique_timestamps_witness :
    (sendWebhook envStuck cfgLikeOnly samplePayload "123" .like
        (initialState [])).logTrace =
      (initialState []).logTrace ++
        [pendingLogAt envStuck cfgLikeOnly samplePayload "123" .like (initialState [])] ∧
    generateWebhookLogId .like "123" 1 ≠ generateWebhookLogId .like "123" 2 :=
  ⟨(generateWebhookLogId_unique_timestamps.1 envStuck cfgLikeOnly samplePayload
      "123" .like (initialState []) rfl).1,
   generateWebhookLogId_unique_timestamps.2 .like "123" 1 2 (by decide)⟩

/-- C9 counterexample: with two enabled configs receiving the same event
for the same entity in the same millisecond, the pipeline creates two
DeliveryLog rows sharing one id — ids are not globally unique. -/
theorem generateWebhookLogId_collision :
    ((triggerWebhooks envStuck .like tweetOnlyId
        (initialState
          [mkLikeCfg "A" "uA" true, mkLikeCfg "B" "uB" true])).logTrace).map
        (fun l => l.id) =
      ["webhook-like-123-0", "webhook-like-123-0"] := by
  decide

/-! ### C1 — retry-queue exhaustion invariant -/

/-- The retry-queue invariant: every queued item still has retries left. -/
def QueueInv (s : SysState) : Prop :=
  ∀ item ∈ s.queue, item.retryCount < item.maxRetries

theorem processItem_queueInv (env : Env) (s : SysState) (item : RetryQueueItem)
    (h : QueueInv s) : QueueInv (processItem env s item) := by
  unfold processItem
  dsimp only
  split
  · intro x hx
    rw [dbUpdateWebhookLog_queue] at hx
    exact h x (List.mem_of_mem_erase hx)
  · split
    · rename_i hlt
      intro x hx
      rw [WebhookQueue.add_queue] at hx
      rcases List.mem_append.mp hx with h1 | h2
      · exact h x (List.mem_of_mem_erase h1)
      · rw [List.mem_singleton] at h2
        subst h2
        exact hlt
    · intro x hx
      rw [dbUpdateWebhookLog_queue] at hx
      exact h x (List.mem_of_mem_erase hx)

theorem foldl_processItem_queueInv (env : Env) :
    ∀ (items : List RetryQueueItem) (s : SysState),
      QueueInv s → QueueInv (items.foldl (processItem env) s) := by
  intro items
  induction items with
  | nil => intro s h; exact h
  | cons r items ih =>
    intro s h
    rw [List.foldl_cons]
    exact ih _ (processItem_queueInv env s r h)

/-- C1: the invariant `retryCount < maxRetries` is preserved by
`processQueue`; a failed retry attempt is re-enqueued with `retryCount`
incremented iff `retryCount + 1 < maxRetries`, otherwise the item is
removed for good and its log finalized as `failed` with
`retry_count = retryCount + 1`; and a concrete item with `maxRetries = 3`
that fails three times ends with an empty queue and a `failed` log with
`retry_count = 3`, never re-enqueued a fourth time. -/
theorem retryQueue_exhaustion_invariant :
    (∀ env s, QueueInv s → QueueInv (processQueue env s)) ∧
    (∀ (env : Env) (s : SysState) (item : RetryQueueItem),
      (WebhookSender.send item.payload
          { url := item.url, headers := some item.headers, timeout := none }
          (env.transport s.sends)).success = false →
      (item.retryCount + 1 < item.maxRetries →
        (processItem env s item).queue =
          s.queue.erase item ++
            [{ item with
                retryCount := item.retryCount + 1
                nextRetryAt :=
                  env.clock s.clicks + calculateDelay (item.retryCount + 1) }] ∧
        (processItem env s item).logs = s.logs) ∧
      (item.maxRetries ≤ item.retryCount + 1 →
        env.storageFails s.stores = false →
        (processItem env s item).queue = s.queue.erase item ∧
        (processItem env s item).logs =
          s.logs.map fun l =>
            if l.id = item.logId then
              applyLogUpdate
                { status := some .failed
                  error_message :=
                    some (WebhookSender.send item.payload
                      { url := item.url, headers := some item.headers, timeout := none }
                      (env.transport s.sends)).error
                  retry_count := some (item.retryCount + 1) } l
            else l)) ∧
    ((processQueue envFail sRetry).queue.map (fun i => i.retryCount) = [1] ∧
     (processQueue envFail (processQueue envFail sRetry)).queue.map
        (fun i => i.retryCount) = [2] ∧
     (processQueue envFail (processQueue envFail (processQueue envFail sRetry))).queue =
        [] ∧
     (processQueue envFail (processQueue envFail (processQueue envFail sRetry))).logs.map
        (fun l => (l.status, l.retry_count)) = [(.failed, 3)]) := by
  refine ⟨?_, ?_, by decide⟩
  · intro env s h
    unfold processQueue
    dsimp only
    split
    · exact h
    · have h2 := foldl_processItem_queueInv env
        (List.filter (fun item => decide (item.nextRetryAt ≤ env.clock s.clicks)) s.queue)
        { s with isProcessing := true, clicks := s.clicks + 1 }
        (fun y hy => h y hy)
      intro x hx
      rw [scheduleProcessing_queue] at hx
      exact h2 x hx
  · intro env s item hfail
    constructor
    · intro hlt
      unfold processItem
      dsimp only
      rw [hfail]
      simp only [Bool.false_eq_true, if_false]
      rw [if_pos hlt]
      constructor
      · rw [WebhookQueue.add_queue]
      · rw [WebhookQueue.add_logs]
    · intro hge hstore
      unfold processItem
      dsimp only
      rw [hfail]
      simp only [Bool.false_eq_true, if_false]
      rw [if_neg (by omega)]
      unfold dbUpdateWebhookLog
      dsimp only
      rw [hstore]
      simp only [Bool.false_eq_true, if_false]
      exact ⟨trivial, trivial⟩

/-- Witness for C1: the invariant holds after a pass over `sRetry`, and
the re-enqueue characterization applies to the concrete failing item. -/
theorem retryQueue_exhaustion_invariant_witness :
    QueueInv (processQueue envFail sRetry) ∧
    (processItem envFail sRetry itemF).queue =
      sRetry.queue.erase itemF ++
        [{ itemF with
            retryCount := itemF.retryCount + 1
            nextRetryAt :=
              envFail.clock sRetry.clicks + calculateDelay (itemF.retryCount + 1) }] := by
  refine ⟨retryQueue_exhaustion_invariant.1 envFail sRetry
    (by intro x hx; simp [sRetry] at hx; subst hx; decide), ?_⟩
  exact (((retryQueue_exhaustion_invariant.2.1 envFail sRetry itemF (by decide)).1)
    (by decide)).1

/-! ### C3 — scheduler exception safety -/

theorem processItem_mem (env : Env) (s : SysState) (item x : RetryQueueItem)
    (hne : x ≠ item) (hx : x ∈ s.queue) : x ∈ (processItem env s item).queue := by
  unfold processItem
  dsimp only
  split
  · rw [dbUpdateWebhookLog_queue]
    exact (List.mem_erase_of_ne hne).mpr hx
  · split
    · rw [WebhookQueue.add_queue]
      exact List.mem_append.mpr (Or.inl ((List.mem_erase_of_ne hne).mpr hx))
    · rw [dbUpdateWebhookLog_queue]
      exact (List.mem_erase_of_ne hne).mpr hx

theorem foldl_processItem_mem (env : Env) (x : RetryQueueItem) :
    ∀ (items : List RetryQueueItem) (s : SysState),
      (∀ r ∈ items, r ≠ x) → x ∈ s.queue →
      x ∈ (items.foldl (processItem env) s).queue := by
  intro items
  induction items with
  | nil => intro s _ hx; exact hx
  | cons r items ih =>
    intro s hr hx
    rw [List.foldl_cons]
    exact ih _ (fun y hy => hr y (List.mem_cons_of_mem r hy))
      (processItem_mem env s r x (hr r (List.mem_cons_self r items)).symm hx)

theorem findEarliest_foldl_some :
    ∀ (t : List RetryQueueItem) (e : RetryQueueItem),
      (t.foldl
        (fun earliest item =>
          match earliest with
          | none => some item
          | some e => if item.nextRetryAt < e.nextRetryAt then some item else some e)
        (some e)).isSome = true := by
  intro t
  induction t with
  | nil => intro e; rfl
  | cons b t ih =>
    intro e
    rw [List.foldl_cons]
    dsimp only
    by_cases hb : b.nextRetryAt < e.nextRetryAt
    · rw [if_pos hb]; exact ih b
    · rw [if_neg hb]; exact ih e

theorem findEarliest_isSome (queue : List RetryQueueItem) (h : queue ≠ []) :
    (findEarliest queue).isSome = true := by
  cases queue with
  | nil => exact absurd rfl h
  | cons a t =>
    unfold findEarliest
    rw [List.foldl_cons]
    exact findEarliest_foldl_some t a

theorem scheduleProcessing_timer_armed (env : Env) (s : SysState)
    (hp : s.isProcessing = false) (hq : s.queue ≠ []) :
    (scheduleProcessing env s).timer.isSome = true := by
  unfold scheduleProcessing
  rw [hp]
  have hie : s.queue.isEmpty = false := by
    cases hqq : s.queue with
    | nil => exact absurd hqq hq
    | cons a t => rfl
  rw [hie]
  simp only [Bool.or_self, Bool.false_eq_true, if_false]
  rcases ho : findEarliest s.queue with _ | ni
  · exfalso
    have hs := findEarliest_isSome s.queue hq
    rw [ho] at hs
    exact absurd hs (by decide)
  · rfl

/-- C3: any exception raised while the retry queue processes its items —
in particular a rejected storage update — is caught and logged (by the
database accessor's `catch`) instead of propagating: for every
environment, even one whose storage always rejects, `processQueue`
returns normally, the re-entrancy flag ends cleared, the not-yet-due
items are still queued, and the timer is re-armed whenever items remain. -/
theorem processQueue_exception_safety (env : Env) (s : SysState)
    (h : s.isProcessing = false) :
    (∀ (e : Env) (id : String) (u : WebhookLogUpdate) (t : SysState),
        e.storageFails t.stores = true →
        dbUpdateWebhookLog e id u t =
          { t with stores := t.stores + 1, dbErrors := t.dbErrors + 1 }) ∧
    (processQueue env s).isProcessing = false ∧
    (∀ item ∈ s.queue, env.clock s.clicks < item.nextRetryAt →
        item ∈ (processQueue env s).queue) ∧
    ((processQueue env s).queue ≠ [] → (processQueue env s).timer.isSome = true) := by
  refine ⟨?_, ?_, ?_, ?_⟩
  · intro e id u t hf
    unfold dbUpdateWebhookLog
    dsimp only
    rw [hf]
    rw [if_pos rfl]
  · unfold processQueue
    dsimp only
    rw [h]
    simp only [Bool.false_eq_true, if_false]
    rw [scheduleProcessing_isProcessing]
  · intro item hm hlt
    unfold processQueue
    dsimp only
    rw [h]
    simp only [Bool.false_eq_true, if_false]
    rw [scheduleProcessing_queue]
    have h2 := foldl_processItem_mem env item
      (List.filter (fun it => decide (it.nextRetryAt ≤ env.clock s.clicks)) s.queue)
      { s with isProcessing := true, clicks := s.clicks + 1 }
      (fun r hr => by
        have hle := of_decide_eq_true (List.mem_filter.mp hr).2
        intro he
        rw [he] at hle
        omega)
      hm
    exact h2
  · intro hne
    unfold processQueue at hne ⊢
    dsimp only at hne ⊢
    rw [h] at hne ⊢
    simp only [Bool.false_eq_true, if_false] at hne ⊢
    rw [scheduleProcessing_queue] at hne
    exact scheduleProcessing_timer_armed env _ rfl hne

/-- Witness for C3: one item out of retries whose `failed` finalization
hits a rejecting storage, plus one not-yet-due item; the pass still ends
with the flag cleared, the later item queued, and the timer armed. -/
theorem processQueue_exception_safety_witness :
    dbUpdateWebhookLog envAllThrow "log1" ⟨none, none, none, none⟩ sMixed =
      { sMixed with stores := sMixed.stores + 1, dbErrors := sMixed.dbErrors + 1 } ∧
    (processQueue envAllThrow sMixed).isProcessing = false ∧
    itemLater ∈ (processQueue envAllThrow sMixed).queue ∧
    (processQueue envAllThrow sMixed).timer.isSome = true := by
  have hx := processQueue_exception_safety envAllThrow sMixed rfl
  exact ⟨hx.1 envAllThrow "log1" ⟨none, none, none, none⟩ sMixed rfl, hx.2.1,
    hx.2.2.1 itemLater (by decide) (by decide), hx.2.2.2 (by decide)⟩

/-- Witness for C10: one disabled config subscribed to `view` and one
enabled config subscribed only to `like`; triggering `view` changes
nothing. -/
theorem triggerWebhooks_noMatch_witness :
    triggerWebhooks envStuck .view tweetOnlyId
        (initialState [cfgDisabled, cfgLikeOnly]) =
      initialState [cfgDisabled, cfgLikeOnly] :=
  (triggerWebhooks_noMatch envStuck .view tweetOnlyId []
    (initialState [cfgDisabled, cfgLikeOnly]) (by decide)).1

end MemoizeX
